import Mathlib

/-!
Verification of the propulsion control system step logic (`src/lib.rs`).

The Rust source computes over IEEE-754 `f64`.  We embed `f64` as an
idealized floating-point type `F`: finite values are exact rationals
(no rounding), extended with `+inf`, `-inf` and a single `NaN`.  All
operations used by the program (subtraction, division, comparison,
`f64::min`, `f64::max`, `== 0.0`) are given their IEEE-754 special-value
semantics; `F.fmin`/`F.fmax` follow Rust's `f64::min`/`f64::max`, which
return the other operand when one argument is NaN.  Every property
proved below is independent of rounding of finite intermediate results:
the claims concern the clamp, the branch structure, special-value
propagation, and exact small-rational scenarios.
-/

/-- Idealized IEEE-754 double: exact rational finite values plus the
special values `+inf`, `-inf` and `NaN`. -/
inductive F where
  | finite : ℚ → F
  | posInf : F
  | negInf : F
  | nan : F
deriving DecidableEq, Repr

namespace F

/-- IEEE equality test against the literal `0.0` (Rust `actual == 0.0`).
NaN and infinities compare unequal to zero; `-0.0` is identified with
`0.0` in the exact-rational model. -/
def eqZero : F → Bool
  | finite q => decide (q = 0)
  | _ => false

/-- IEEE subtraction `a - b` on the idealized doubles. -/
def fsub : F → F → F
  | nan, _ => nan
  | _, nan => nan
  | posInf, posInf => nan
  | posInf, _ => posInf
  | negInf, negInf => nan
  | negInf, _ => negInf
  | finite _, posInf => negInf
  | finite _, negInf => posInf
  | finite q, finite r => finite (q - r)

/-- IEEE addition `a + b` on the idealized doubles. -/
def fadd : F → F → F
  | nan, _ => nan
  | _, nan => nan
  | posInf, negInf => nan
  | negInf, posInf => nan
  | posInf, _ => posInf
  | _, posInf => posInf
  | negInf, _ => negInf
  | _, negInf => negInf
  | finite q, finite r => finite (q + r)

/-- IEEE division `a / b` on the idealized doubles (the unsigned exact
zero is treated as `+0.0` where a sign matters). -/
def fdiv : F → F → F
  | nan, _ => nan
  | _, nan => nan
  | posInf, posInf => nan
  | posInf, negInf => nan
  | negInf, posInf => nan
  | negInf, negInf => nan
  | posInf, finite q => if 0 ≤ q then posInf else negInf
  | negInf, finite q => if 0 ≤ q then negInf else posInf
  | finite _, posInf => finite 0
  | finite _, negInf => finite 0
  | finite q, finite r =>
      if r = 0 then
        if q = 0 then nan else if 0 < q then posInf else negInf
      else finite (q / r)

/-- IEEE strict less-than: any comparison involving NaN is false. -/
def flt : F → F → Bool
  | nan, _ => false
  | _, nan => false
  | negInf, negInf => false
  | negInf, _ => true
  | finite _, negInf => false
  | finite q, finite r => decide (q < r)
  | finite _, posInf => true
  | posInf, _ => false

/-- IEEE strict greater-than, `a > b` in Rust, equivalent to `b < a`. -/
def fgt (a b : F) : Bool := flt b a

/-- Rust `f64::min`: if one argument is NaN the other is returned,
otherwise the numeric minimum. -/
def fmin : F → F → F
  | nan, b => b
  | a, nan => a
  | negInf, _ => negInf
  | _, negInf => negInf
  | posInf, b => b
  | a, posInf => a
  | finite q, finite r => finite (min q r)

/-- Rust `f64::max`: if one argument is NaN the other is returned,
otherwise the numeric maximum. -/
def fmax : F → F → F
  | nan, b => b
  | a, nan => a
  | posInf, _ => posInf
  | _, posInf => posInf
  | negInf, b => b
  | a, negInf => a
  | finite q, finite r => finite (max q r)

/-- The value is a finite rational or `+inf` and is nonnegative (the
signs that a clamp at the upper boundary 1 absorbs). -/
def isNonneg : F → Bool
  | finite q => decide (0 ≤ q)
  | posInf => true
  | _ => false

/-- The value is a finite rational or `-inf` and is nonpositive (the
signs that a clamp at the lower boundary 0 absorbs). -/
def isNonpos : F → Bool
  | finite q => decide (q ≤ 0)
  | negInf => true
  | _ => false

end F

/-- The controller state of `PropulsionControlSystem` in `src/lib.rs`:
five input fields, then the five output fields written by `do_step`. -/
structure PropulsionControlSystem where
  minimum_consumption_kgps : F
  setpoint_consumption_kgps : F
  setpoint_speed_mps : F
  actual_consumption_kgps : F
  actual_speed_mps : F
  mode : Int
  lever_order : F
  actual_consumption_relative_minimum_consumption : F
  actual_speed_relative_setpoint_speed : F
  actual_consumption_relative_setpoint_consumption : F
deriving DecidableEq, Repr

/-- `calculate_relative_value` from `src/lib.rs`: `0.0` when
`actual == 0.0`, otherwise `(setpoint - actual) / actual`. -/
def calculate_relative_value (actual setpoint : F) : F :=
  if actual.eqZero then F.finite 0
  else F.fdiv (F.fsub setpoint actual) actual

/-- `do_step` from `src/lib.rs`, translated statement by statement:
write the three relative deviations, select the mode and increment
`lever_order` by the ordered decision list, then clamp `lever_order`
with `f64::max(0.0, f64::min(1.0, lever_order))`.  The two time
arguments are accepted and ignored exactly as in the source. -/
def do_step (s : PropulsionControlSystem) (_current_time _time_step : F) :
    PropulsionControlSystem :=
  let s := { s with actual_consumption_relative_minimum_consumption :=
      calculate_relative_value s.actual_consumption_kgps s.minimum_consumption_kgps }
  let s := { s with actual_consumption_relative_setpoint_consumption :=
      calculate_relative_value s.actual_consumption_kgps s.setpoint_consumption_kgps }
  let s := { s with actual_speed_relative_setpoint_speed :=
      calculate_relative_value s.actual_speed_mps s.setpoint_speed_mps }
  let s :=
    if F.fgt s.actual_consumption_relative_minimum_consumption
        (F.fmin s.actual_consumption_relative_setpoint_consumption
          s.actual_speed_relative_setpoint_speed) then
      { s with
        lever_order := F.fadd s.lever_order
          s.actual_consumption_relative_minimum_consumption,
        mode := 0 }
    else if F.flt s.actual_consumption_relative_setpoint_consumption
        s.actual_speed_relative_setpoint_speed then
      { s with
        lever_order := F.fadd s.lever_order
          s.actual_consumption_relative_setpoint_consumption,
        mode := 1 }
    else
      { s with
        lever_order := F.fadd s.lever_order
          s.actual_speed_relative_setpoint_speed,
        mode := 2 }
  { s with lever_order := F.fmax (F.finite 0) (F.fmin (F.finite 1) s.lever_order) }

/-- The deviation of actual consumption against the minimum-consumption
floor, recomputed by `do_step` each step (spec name `dev_min`). -/
def dev_min (s : PropulsionControlSystem) : F :=
  calculate_relative_value s.actual_consumption_kgps s.minimum_consumption_kgps

/-- The deviation of actual consumption against its setpoint,
recomputed by `do_step` each step (spec name `dev_cons`). -/
def dev_cons (s : PropulsionControlSystem) : F :=
  calculate_relative_value s.actual_consumption_kgps s.setpoint_consumption_kgps

/-- The deviation of actual speed against its setpoint, recomputed by
`do_step` each step (spec name `dev_speed`). -/
def dev_speed (s : PropulsionControlSystem) : F :=
  calculate_relative_value s.actual_speed_mps s.setpoint_speed_mps

/-- The clamp applied at the end of `do_step`:
`f64::max(0.0, f64::min(1.0, x))`. -/
def clamp01 (x : F) : F := F.fmax (F.finite 0) (F.fmin (F.finite 1) x)

/-- The deviation selected by the ordered decision list of `do_step`,
the one added to `lever_order` before the clamp. -/
def selDev (s : PropulsionControlSystem) : F :=
  if F.fgt (dev_min s) (F.fmin (dev_cons s) (dev_speed s)) then dev_min s
  else if F.flt (dev_cons s) (dev_speed s) then dev_cons s
  else dev_speed s

/-- The discrete operating mode of the spec, with the integer encoding
`0,1,2` used at the external boundary. -/
inductive Mode where
  | MinimumConsumption : Mode
  | Consumption : Mode
  | Speed : Mode
deriving DecidableEq, Repr

/-- Integer code of a mode: 0 = minimum consumption, 1 = consumption,
2 = speed, as in the source comments. -/
def Mode.code : Mode → Int
  | .MinimumConsumption => 0
  | .Consumption => 1
  | .Speed => 2

/-- The step transition written from the spec's words (§4.2): compute
the three deviations, select mode and increment by the ordered decision
list with strict comparisons only, then clamp to `[0,1]`.  This is the
spec-side description compared against `do_step` in claim C2. -/
def stepSpec (s : PropulsionControlSystem) : PropulsionControlSystem :=
  let d_min := dev_min s
  let d_cons := dev_cons s
  let d_speed := dev_speed s
  let chosen : Mode × F :=
    if F.fgt d_min (F.fmin d_cons d_speed) then
      (Mode.MinimumConsumption, F.fadd s.lever_order d_min)
    else if F.flt d_cons d_speed then
      (Mode.Consumption, F.fadd s.lever_order d_cons)
    else
      (Mode.Speed, F.fadd s.lever_order d_speed)
  { s with
    mode := chosen.1.code,
    lever_order := clamp01 chosen.2,
    actual_consumption_relative_minimum_consumption := d_min,
    actual_consumption_relative_setpoint_consumption := d_cons,
    actual_speed_relative_setpoint_speed := d_speed }

/-- The spec's Scenario D (tie/equality case): minimum 10, setpoint
consumption 20, setpoint speed 10, actual consumption 10, actual speed
10, lever order 0.5; outputs start at their defaulted values. -/
def scenarioD : PropulsionControlSystem :=
  { minimum_consumption_kgps := F.finite 10,
    setpoint_consumption_kgps := F.finite 20,
    setpoint_speed_mps := F.finite 10,
    actual_consumption_kgps := F.finite 10,
    actual_speed_mps := F.finite 10,
    mode := 0,
    lever_order := F.finite (1/2),
    actual_consumption_relative_minimum_consumption := F.finite 0,
    actual_speed_relative_setpoint_speed := F.finite 0,
    actual_consumption_relative_setpoint_consumption := F.finite 0 }

/-- The spec's Scenario E: minimum 5, setpoint consumption 10, setpoint
speed `+inf`, actual consumption 9, actual speed 11, lever order 0.5;
outputs start at their defaulted values. -/
def scenarioE : PropulsionControlSystem :=
  { minimum_consumption_kgps := F.finite 5,
    setpoint_consumption_kgps := F.finite 10,
    setpoint_speed_mps := F.posInf,
    actual_consumption_kgps := F.finite 9,
    actual_speed_mps := F.finite 11,
    mode := 0,
    lever_order := F.finite (1/2),
    actual_consumption_relative_minimum_consumption := F.finite 0,
    actual_speed_relative_setpoint_speed := F.finite 0,
    actual_consumption_relative_setpoint_consumption := F.finite 0 }

/-- A state whose accumulated lever order is NaN before the clamp: all
measurement inputs zero (so every deviation is `0.0`) and a NaN already
stored in `lever_order`. -/
def nanLeverState : PropulsionControlSystem :=
  { minimum_consumption_kgps := F.finite 0,
    setpoint_consumption_kgps := F.finite 0,
    setpoint_speed_mps := F.finite 0,
    actual_consumption_kgps := F.finite 0,
    actual_speed_mps := F.finite 0,
    mode := 0,
    lever_order := F.nan,
    actual_consumption_relative_minimum_consumption := F.finite 0,
    actual_speed_relative_setpoint_speed := F.finite 0,
    actual_consumption_relative_setpoint_consumption := F.finite 0 }

/-- A state at the upper lever boundary whose selected deviation is
positive: Scenario A inputs (minimum 10, setpoint consumption 20,
setpoint speed 10, actual consumption 5, actual speed 10) with the
lever order already clamped at 1. -/
def boundaryState : PropulsionControlSystem :=
  { minimum_consumption_kgps := F.finite 10,
    setpoint_consumption_kgps := F.finite 20,
    setpoint_speed_mps := F.finite 10,
    actual_consumption_kgps := F.finite 5,
    actual_speed_mps := F.finite 10,
    mode := 0,
    lever_order := F.finite 1,
    actual_consumption_relative_minimum_consumption := F.finite 0,
    actual_speed_relative_setpoint_speed := F.finite 0,
    actual_consumption_relative_setpoint_consumption := F.finite 0 }

/-- Unfolding lemma: `do_step` computes the spec-side transition.
Shared by several claim proofs below. -/
theorem do_step_eq_stepSpec (s : PropulsionControlSystem) (t dt : F) :
    do_step s t dt = stepSpec s := by
  unfold do_step stepSpec dev_min dev_cons dev_speed clamp01
  dsimp only
  split
  · rfl
  · split <;> rfl

/-- Unfolding lemma: the `lever_order` written by `do_step` is the clamp
of the previous `lever_order` plus the selected deviation. -/
theorem lever_order_step_decomp (s : PropulsionControlSystem) (t dt : F) :
    (do_step s t dt).lever_order = clamp01 (F.fadd s.lever_order (selDev s)) := by
  rw [do_step_eq_stepSpec]
  unfold stepSpec selDev
  dsimp only
  split
  · rfl
  · split <;> rfl

/-- The clamp `f64::max(0.0, f64::min(1.0, x))` always lands on a finite
rational in the unit interval, whatever `x` is (finite, infinite or NaN). -/
theorem clamp01_mem_unit (x : F) :
    ∃ q : ℚ, clamp01 x = F.finite q ∧ 0 ≤ q ∧ q ≤ 1 := by
  cases x with
  | finite q =>
      exact ⟨max 0 (min 1 q), rfl, le_max_left 0 _,
        max_le zero_le_one (min_le_left 1 q)⟩
  | posInf => exact ⟨max 0 1, rfl, by norm_num, by norm_num⟩
  | negInf => exact ⟨0, rfl, le_refl 0, zero_le_one⟩
  | nan => exact ⟨max 0 1, rfl, by norm_num, by norm_num⟩

/-- C1: for every controller state and every pair of time arguments,
after one call to `do_step` the field `lever_order` is a finite value in
the closed interval `[0, 1]`, regardless of input magnitude, including
infinite inputs and non-finite or NaN pre-clamp accumulations. -/
theorem lever_order_unit_interval_after_step
    (s : PropulsionControlSystem) (t dt : F) :
    ∃ q : ℚ, (do_step s t dt).lever_order = F.finite q ∧ 0 ≤ q ∧ q ≤ 1 := by
  rw [lever_order_step_decomp]
  exact clamp01_mem_unit _

/-- C2: `do_step` is exactly the spec's ordered decision list over the
three freshly computed deviations, with strict comparisons only: if
`dev_min > min(dev_cons, dev_speed)` then mode `MinimumConsumption` and
`lever_order += dev_min`; else if `dev_cons < dev_speed` then mode
`Consumption` and `lever_order += dev_cons`; else mode `Speed` and
`lever_order += dev_speed`; the clamp to `[0,1]` is applied after the
increment (`stepSpec` is this spec-side description). -/
theorem do_step_implements_decision_list
    (s : PropulsionControlSystem) (t dt : F) :
    do_step s t dt = stepSpec s :=
  do_step_eq_stepSpec s t dt

/-- C3: the relative-error function returns `0.0` when `actual` equals
`0.0` exactly, and otherwise returns `(setpoint - actual) / actual`; it
is a total pure function of its two arguments. -/
theorem calculate_relative_value_spec (a r : F) :
    calculate_relative_value a r =
      if a = F.finite 0 then F.finite 0 else F.fdiv (F.fsub r a) a := by
  cases a <;> simp [calculate_relative_value, F.eqZero]

/-- C8: the result of `do_step` does not depend on the two time
arguments: any two pairs of time arguments give identical states. -/
theorem do_step_time_independent
    (s : PropulsionControlSystem) (t1 dt1 t2 dt2 : F) :
    do_step s t1 dt1 = do_step s t2 dt2 := rfl

/-- C9: `do_step` leaves the five input fields unchanged; only `mode`,
`lever_order` and the three relative-deviation outputs are written. -/
theorem do_step_preserves_inputs (s : PropulsionControlSystem) (t dt : F) :
    (do_step s t dt).minimum_consumption_kgps = s.minimum_consumption_kgps ∧
    (do_step s t dt).setpoint_consumption_kgps = s.setpoint_consumption_kgps ∧
    (do_step s t dt).setpoint_speed_mps = s.setpoint_speed_mps ∧
    (do_step s t dt).actual_consumption_kgps = s.actual_consumption_kgps ∧
    (do_step s t dt).actual_speed_mps = s.actual_speed_mps := by
  rw [do_step_eq_stepSpec]
  exact ⟨rfl, rfl, rfl, rfl, rfl⟩

/-- C4: when `lever_order` already sits at a boundary (exactly 0 or
exactly 1) and the deviation selected by the decision list has the sign
that would push it further out of range (nonnegative at 1, nonpositive
at 0), the step leaves `lever_order` unchanged: the clamp absorbs the
increment.  This covers re-invoking `do_step` with identical inputs
from an already-clamped state. -/
theorem clamp_absorbs_at_boundary (s : PropulsionControlSystem) (t dt : F)
    (h : (s.lever_order = F.finite 1 ∧ F.isNonneg (selDev s) = true) ∨
         (s.lever_order = F.finite 0 ∧ F.isNonpos (selDev s) = true)) :
    (do_step s t dt).lever_order = s.lever_order := by
  rw [lever_order_step_decomp]
  rcases h with ⟨h1, h2⟩ | ⟨h1, h2⟩
  · rw [h1]
    cases hd : selDev s with
    | finite q =>
        rw [hd] at h2
        have hq : 0 ≤ q := by simpa [F.isNonneg] using h2
        have hmin : min 1 (1 + q) = (1 : ℚ) := min_eq_left (by linarith)
        norm_num [clamp01, F.fadd, F.fmin, F.fmax, hmin]
    | posInf => norm_num [clamp01, F.fadd, F.fmin, F.fmax]
    | negInf => rw [hd] at h2; simp [F.isNonneg] at h2
    | nan => rw [hd] at h2; simp [F.isNonneg] at h2
  · rw [h1]
    cases hd : selDev s with
    | finite q =>
        rw [hd] at h2
        have hq : q ≤ 0 := by simpa [F.isNonpos] using h2
        have hmin : min 1 (0 + q) = (0 : ℚ) + q := min_eq_right (by linarith)
        have hmax : max 0 ((0 : ℚ) + q) = 0 := max_eq_left (by linarith)
        norm_num [clamp01, F.fadd, F.fmin, F.fmax, hmin, hmax, hq]
    | posInf => rw [hd] at h2; simp [F.isNonpos] at h2
    | negInf => norm_num [clamp01, F.fadd, F.fmin, F.fmax]
    | nan => rw [hd] at h2; simp [F.isNonpos] at h2

/-- Witness for C4: `boundaryState` has its lever order at 1 with a
positive selected deviation, and the step leaves the lever order at 1. -/
theorem clamp_absorbs_at_boundary_witness :
    (boundaryState.lever_order = F.finite 1 ∧
      F.isNonneg (selDev boundaryState) = true) ∧
    (do_step boundaryState (F.finite 0) (F.finite 1)).lever_order =
      boundaryState.lever_order := by
  have hpre : boundaryState.lever_order = F.finite 1 ∧
      F.isNonneg (selDev boundaryState) = true := by
    constructor
    · rfl
    · norm_num [selDev, dev_min, dev_cons, dev_speed, boundaryState,
        calculate_relative_value, F.eqZero, F.fsub, F.fdiv, F.fgt, F.flt,
        F.fmin, F.isNonneg]
  exact ⟨hpre, clamp_absorbs_at_boundary boundaryState (F.finite 0)
    (F.finite 1) (Or.inl hpre)⟩

/-- Counterexample for C5: in Scenario E the speed deviation computed by
the code is `+inf` — very positive, not very negative: it is not below
zero. -/
theorem scenarioE_dev_speed_not_negative :
    dev_speed scenarioE = F.posInf ∧
    F.flt (dev_speed scenarioE) (F.finite 0) = false := by
  constructor <;>
    norm_num [dev_speed, scenarioE, calculate_relative_value, F.eqZero,
      F.fsub, F.fdiv, F.flt]

/-- Amended C5: in Scenario E the speed deviation is `+inf` (very
positive), so the first branch fails (`dev_min = -4/9` is not above
`min(dev_cons, dev_speed) = 1/9`) while `dev_cons < dev_speed` holds,
forcing mode = Consumption (code 1) with the lever order strictly above
0.5. -/
theorem scenarioE_consumption_mode :
    dev_speed scenarioE = F.posInf ∧
    (do_step scenarioE (F.finite 0) (F.finite 1)).mode = Mode.Consumption.code ∧
    F.flt (F.finite (1/2))
      ((do_step scenarioE (F.finite 0) (F.finite 1)).lever_order) = true := by
  refine ⟨?_, ?_, ?_⟩ <;>
    norm_num [do_step, dev_speed, scenarioE, Mode.code, calculate_relative_value,
      F.eqZero, F.fsub, F.fdiv, F.fadd, F.fgt, F.flt, F.fmin, F.fmax]

/-- Counterexample for C6: in Scenario D the consumption deviation
computed by the code is `1.0`, not `0.0` — the three deviations are not
all zero. -/
theorem scenarioD_dev_cons_not_zero :
    dev_cons scenarioD = F.finite 1 ∧ dev_cons scenarioD ≠ F.finite 0 := by
  constructor <;>
    norm_num [dev_cons, scenarioD, calculate_relative_value, F.eqZero,
      F.fsub, F.fdiv]

/-- Amended C6: in Scenario D the minimum and speed deviations are `0.0`
while the consumption deviation is `1.0`; the strict-inequality
fallthrough (`dev_min = 0` is not above `min(1, 0) = 0`, and
`dev_cons = 1` is not below `dev_speed = 0`) yields mode = Speed
(code 2), and the lever order stays exactly 0.5. -/
theorem scenarioD_speed_mode_tie_fallthrough :
    dev_min scenarioD = F.finite 0 ∧
    dev_speed scenarioD = F.finite 0 ∧
    dev_cons scenarioD = F.finite 1 ∧
    (do_step scenarioD (F.finite 0) (F.finite 1)).mode = Mode.Speed.code ∧
    (do_step scenarioD (F.finite 0) (F.finite 1)).lever_order =
      F.finite (1/2) := by
  refine ⟨?_, ?_, ?_, ?_, ?_⟩ <;>
    norm_num [do_step, dev_min, dev_cons, dev_speed, scenarioD, Mode.code,
      calculate_relative_value, F.eqZero, F.fsub, F.fdiv, F.fadd, F.fgt,
      F.flt, F.fmin, F.fmax]

/-- Counterexample for C7: `+inf` is a nonzero value, yet the
relative-error function applied to `(+inf, +inf)` returns NaN, not
`0.0` (the subtraction `inf - inf` is NaN and NaN propagates). -/
theorem relative_value_inf_self_not_zero :
    F.posInf ≠ F.finite 0 ∧
    calculate_relative_value F.posInf F.posInf = F.nan ∧
    calculate_relative_value F.posInf F.posInf ≠ F.finite 0 := by
  refine ⟨by decide, by decide, by decide⟩

/-- Amended C7: for every finite nonzero value `a`, the relative-error
function applied to `(a, a)` returns `0.0`; and for every value `r`
(finite or not), the relative-error function applied to `(0.0, r)`
returns `0.0`. -/
theorem relative_value_self_and_zero :
    (∀ q : ℚ, q ≠ 0 →
      calculate_relative_value (F.finite q) (F.finite q) = F.finite 0) ∧
    (∀ r : F, calculate_relative_value (F.finite 0) r = F.finite 0) := by
  constructor
  · intro q hq
    simp [calculate_relative_value, F.eqZero, F.fsub, F.fdiv, hq]
  · intro r
    simp [calculate_relative_value, F.eqZero]

/-- Witness for C7's amended theorem: at the finite nonzero value 2 and
at the second argument NaN. -/
theorem relative_value_self_and_zero_witness :
    calculate_relative_value (F.finite 2) (F.finite 2) = F.finite 0 ∧
    calculate_relative_value (F.finite 0) F.nan = F.finite 0 :=
  ⟨relative_value_self_and_zero.1 2 (by norm_num),
   relative_value_self_and_zero.2 F.nan⟩

/-- C10: whenever the pre-clamp lever-order accumulation (previous
lever order plus selected deviation) is NaN, the clamp resolves it to
exactly `1.0`: Rust's `f64::min(1.0, NaN)` returns `1.0` and
`f64::max(0.0, 1.0)` returns `1.0`, so `lever_order` is never NaN after
a step. -/
theorem nan_accumulation_clamps_to_one
    (s : PropulsionControlSystem) (t dt : F)
    (h : F.fadd s.lever_order (selDev s) = F.nan) :
    (do_step s t dt).lever_order = F.finite 1 := by
  rw [lever_order_step_decomp, h]
  norm_num [clamp01, F.fmin, F.fmax]

/-- Witness for C10: `nanLeverState` accumulates NaN before the clamp
(NaN stored lever order plus zero selected deviation), and the step
writes exactly `1.0`. -/
theorem nan_accumulation_clamps_to_one_witness :
    F.fadd nanLeverState.lever_order (selDev nanLeverState) = F.nan ∧
    (do_step nanLeverState (F.finite 0) (F.finite 1)).lever_order =
      F.finite 1 := by
  have hpre : F.fadd nanLeverState.lever_order (selDev nanLeverState) =
      F.nan := by
    norm_num [nanLeverState, selDev, dev_min, dev_cons, dev_speed,
      calculate_relative_value, F.eqZero, F.fadd, F.fgt, F.flt, F.fmin]
  exact ⟨hpre, nan_accumulation_clamps_to_one nanLeverState (F.finite 0)
    (F.finite 1) hpre⟩
